import Mathlib

/-!
Shallow embedding of the icapegclh ICAP server's transaction controller
(src/api/icap-request.go).  The response writer and the transaction entry
point live in packages that are not part of the staged sources, so those
two pieces are modelled from the specification (each such definition says
so in its doc comment); everything else is translated directly from the
Go source.
-/

namespace Icapeg

/-- Canonical MIME header key, as Go net/textproto.CanonicalMIMEHeaderKey
behaves on keys made of letters, digits and hyphens (the only keys this
server uses): the first letter and every letter following a hyphen is
upper-cased, every other letter lower-cased.  A key containing any other
character is returned unchanged. -/
def canonChars : Bool → List Char → List Char
  | _, [] => []
  | up, c :: cs => (if up then c.toUpper else c.toLower) :: canonChars (c == '-') cs

def canonicalKey (s : String) : String :=
  if s.toList.all (fun c => c.isAlphanum || c == '-') then
    String.mk (canonChars true s.toList)
  else s

/-- Go http.Header.Set: store the value under the (already canonical) key,
replacing any previous value of that key. -/
def hSet : List (String × String) → String → String → List (String × String)
  | [], k, v => [(k, v)]
  | (k0, v0) :: rest, k, v =>
      if k0 = k then (k, v) :: rest else (k0, v0) :: hSet rest k v

def hGet (h : List (String × String)) (k : String) : Option String :=
  (h.find? (fun kv => kv.1 == k)).map (fun kv => kv.2)

/-- An encapsulated HTTP request (method plus de-chunked body bytes). -/
structure HttpRequest where
  method : String
  body : List Nat
deriving DecidableEq, Repr

/-- An encapsulated HTTP response (de-chunked body bytes). -/
structure HttpResponse where
  body : List Nat
deriving DecidableEq, Repr

/-- The encapsulated message argument of a WriteHeader call (Go passes an
interface value: a request, a response, or nil). -/
inductive EncapMsg where
  | nil
  | req (r : HttpRequest)
  | resp (r : HttpResponse)
deriving DecidableEq, Repr

/-- A parsed ICAP request as the controller receives it: the ICAP method,
the URL path, the ICAP headers (keys canonical, as the textproto parser
stores them), and the optional encapsulated HTTP request and response. -/
structure IcapRequest where
  method : String
  urlPath : String
  header : List (String × List String)
  request : Option HttpRequest
  response : Option HttpResponse
deriving DecidableEq, Repr

/-- Per-service configuration keys (section 6 of the configuration
surface read through the readValues package). -/
structure ServiceCfg where
  vendor : String
  service_tag : String
  service_caption : String
  req_mode : Bool
  resp_mode : Bool
  shadow_service : Bool
deriving DecidableEq, Repr

/-- The app-level configuration fields optionsMode reads. -/
structure AppCfg where
  PreviewEnabled : Bool
  PreviewBytes : String
deriving DecidableEq, Repr

/-- The configuration snapshot: the app.services list, the per-service
tables (a name without a table reads as zero values), and the app table. -/
structure Config where
  services : List String
  svc : String → ServiceCfg
  app : AppCfg

/-- readValues.ReadValuesBool on the key serviceName.field (viper reads an
absent key as false). -/
def readValuesBool (cfg : Config) (serviceName field : String) : Bool :=
  if field = "req_mode" then (cfg.svc serviceName).req_mode
  else if field = "resp_mode" then (cfg.svc serviceName).resp_mode
  else if field = "shadow_service" then (cfg.svc serviceName).shadow_service
  else false

/-- readValues.ReadValuesString on the key serviceName.field (an absent key
reads as the empty string). -/
def readValuesString (cfg : Config) (serviceName field : String) : String :=
  if field = "vendor" then (cfg.svc serviceName).vendor
  else if field = "service_tag" then (cfg.svc serviceName).service_tag
  else if field = "service_caption" then (cfg.svc serviceName).service_caption
  else ""

/-- The reply committed on the wire: status, the header block as it stood
at the WriteHeader call, the encapsulated message argument, the hasBody
flag, and the body bytes written afterwards. -/
structure Committed where
  status : Nat
  headers : List (String × String)
  msg : EncapMsg
  hasBody : Bool
  bodyBytes : List Nat
deriving DecidableEq, Repr

/-- Modelled from the spec: the icap package's ResponseWriter is not among
the staged sources.  Per the response-writer contract (spec section 4.2) it
is a single-shot state machine: writeStatus commits the status line and the
current header block exactly once and rejects any later call, and body
writes are valid only after the commit. -/
structure Writer where
  h : List (String × String)
  committed : Option Committed
deriving DecidableEq, Repr

/-- Header().Set(k, v): canonicalizes the key and replaces its value. -/
def Writer.setHeader (w : Writer) (k v : String) : Writer :=
  ⟨hSet w.h (canonicalKey k) v, w.committed⟩

/-- WriteHeader(status, msg, hasBody): commits the current header block;
a second call is rejected (spec section 4.2: writeStatus must be called
exactly once). -/
def Writer.writeHeader (w : Writer) (status : Nat) (msg : EncapMsg) (hasBody : Bool) :
    Writer :=
  match w.committed with
  | some _ => w
  | none => ⟨w.h, some ⟨status, w.h, msg, hasBody, []⟩⟩

/-- Write(bytes): appends body bytes after the commit. -/
def Writer.write (w : Writer) (bs : List Nat) : Writer :=
  ⟨w.h, w.committed.map (fun c => ⟨c.status, c.headers, c.msg, c.hasBody, c.bodyBytes ++ bs⟩)⟩

/-- The status of the committed reply, when one has been committed. -/
def commitStatus (w : Writer) : Option Nat :=
  w.committed.map Committed.status

/-- isServiceExists: the service name must appear in app.services. -/
def isServiceExists (cfg : Config) (serviceName : String) : Bool :=
  cfg.services.contains serviceName

/-- getMethodName: maps REQMOD and RESPMOD to their configuration keys. -/
def getMethodName (methodName : String) : String :=
  if methodName = "REQMOD" then "req_mode"
  else if methodName = "RESPMOD" then "resp_mode"
  else methodName

/-- isMethodAllowed: OPTIONS is always allowed; anything else is gated by
the configuration key named by the (mapped) method name. -/
def isMethodAllowed (cfg : Config) (serviceName methodName : String) : Bool :=
  if methodName ≠ "OPTIONS" then readValuesBool cfg serviceName methodName
  else true

/-- getVendorName: reads serviceName.vendor. -/
def getVendorName (cfg : Config) (serviceName : String) : String :=
  readValuesString cfg serviceName "vendor"

/-- addingISTAGServiceHeaders: sets ISTag and Service from the service
descriptor (http.Header.Set stores them under their canonical keys). -/
def addingISTAGServiceHeaders (cfg : Config) (serviceName : String) (w : Writer) : Writer :=
  (w.setHeader "ISTag" (readValuesString cfg serviceName "service_tag")).setHeader
    "Service" (readValuesString cfg serviceName "service_caption")

/-- http.Header.Get: first value stored under the key, or the empty string. -/
def headerGet (h : List (String × List String)) (k : String) : String :=
  match h.find? (fun kv => kv.1 == k) with
  | some (_, v :: _) => v
  | _ => ""

/-- The comma-ok map index on the ICAP header. -/
def headerHas (h : List (String × List String)) (k : String) : Bool :=
  (h.find? (fun kv => kv.1 == k)).isSome

/-- is204Allowed: the Allow key exists and Header.Get("Allow") equals the
string form of 204. -/
def is204Allowed (req : IcapRequest) : Bool :=
  headerHas req.header "Allow" && headerGet req.header "Allow" == "204"

/-- getEnabledMethods: collects RESPMOD then REQMOD when their flags are
set and joins them; indexing an empty slice is a runtime panic, returned
here as none. -/
def getEnabledMethods (cfg : Config) (serviceName : String) : Option String :=
  let allMethods : List String :=
    (if readValuesBool cfg serviceName "resp_mode" then ["RESPMOD"] else []) ++
      (if readValuesBool cfg serviceName "req_mode" then ["REQMOD"] else [])
  if allMethods.length = 1 then allMethods[0]?
  else
    match allMethods[0]?, allMethods[1]? with
    | some a, some b => some (a ++ ", " ++ b)
    | _, _ => none

/-- strconv.Atoi: an optional sign followed by decimal digits spanning the
whole string; anything else is an error (none). -/
def goAtoi (s : String) : Option Int :=
  let t := if s.startsWith "-" || s.startsWith "+" then s.drop 1 else s
  if t.length = 0 || !(t.toList.all Char.isDigit) then none
  else
    let n : Nat := t.toList.foldl (fun a c => a * 10 + (c.toNat - 48)) 0
    if s.startsWith "-" then some (-(n : Int)) else some ((n : Int))

/-- The call sites discard Atoi's error, in which case the returned integer
is Go's zero value. -/
def atoiOrZero (s : String) : Int :=
  (goAtoi s).getD 0

/-- The outcome of handling one transaction: the final writer state, how
many times the adaptation backend's Processing was invoked, and whether the
code path hit a runtime panic (a nil dereference or an out-of-range index). -/
structure Outcome where
  writer : Writer
  backendCalls : Nat
  panicked : Bool
deriving Repr

/-- optionsMode: sets Methods, Allow: 204, Preview when the preview flag is
enabled and the configured string reads as non-negative, always sets
Transfer-Preview: *, then writes status 200 with no body.  getEnabledMethods
panics (out-of-range index) when no method flag is set. -/
def optionsMode (cfg : Config) (serviceName : String) (w : Writer) : Outcome :=
  match getEnabledMethods cfg serviceName with
  | none => ⟨w, 0, true⟩
  | some methods =>
    let w := w.setHeader "Methods" methods
    let w := w.setHeader "Allow" "204"
    let w :=
      if cfg.app.PreviewEnabled = true then
        (if 0 ≤ atoiOrZero cfg.app.PreviewBytes then
          w.setHeader "Preview" cfg.app.PreviewBytes
        else w)
      else w
    let w := w.setHeader "Transfer-Preview" "*"
    ⟨w.writeHeader 200 EncapMsg.nil false, 0, false⟩

/-- The message handed to the backend: the encapsulated request and
response, after the controller substituted an empty request object for a
missing one. -/
structure HttpMsg where
  request : Option HttpRequest
  response : Option HttpResponse
deriving DecidableEq, Repr

/-- What a backend's Processing returns: the ICAP status code, the (possibly
nil) replacement HTTP message, and the extra ICAP headers. -/
structure BackendResult where
  status : Nat
  httpMsg : EncapMsg
  headers : Option (List (String × String))
deriving DecidableEq, Repr

/-- The empty http.Request object substituted for a missing encapsulated
request. -/
def emptyHttpRequest : HttpRequest :=
  ⟨"", []⟩

/-- The HttpMsg built at the dispatch site, after the nil-request
substitution. -/
def dispatchMsg (req : IcapRequest) : HttpMsg :=
  ⟨some (req.request.getD emptyHttpRequest), req.response⟩

/-- The loop merging the backend's extra headers into the response header
block with Header().Set. -/
def mergeServiceHeaders (w : Writer) (hs : List (String × String)) : Writer :=
  hs.foldl (fun acc kv => acc.setHeader kv.1 kv.2) w

/-- The nil-guarded header merge: the loop runs only when the backend
returned a header map. -/
def mergedWriter (w : Writer) : Option (List (String × String)) → Writer
  | none => w
  | some hs => mergeServiceHeaders w hs

/-- The tail of RequestProcessing shared by REQMOD and RESPMOD: dispatch to
the backend, merge its headers, return early in shadow mode, else map the
backend's ICAP status (500, 204 — split on Is204Allowed — and 200; any
other status writes nothing). -/
def processCore (req : IcapRequest) (is204Flag isShadow : Bool)
    (backend : HttpMsg → BackendResult) (w : Writer) : Outcome :=
  let res := backend (dispatchMsg req)
  let w := mergedWriter w res.headers
  if isShadow then ⟨w, 1, false⟩
  else if res.status = 500 then ⟨w.writeHeader 500 EncapMsg.nil false, 1, false⟩
  else if res.status = 204 then
    (if is204Flag then ⟨w.writeHeader 204 EncapMsg.nil false, 1, false⟩
     else ⟨w.writeHeader 200 res.httpMsg true, 1, false⟩)
  else if res.status = 200 then ⟨w.writeHeader 200 res.httpMsg true, 1, false⟩
  else ⟨w, 1, false⟩

/-- RequestProcessing: OPTIONS goes to optionsMode; REQMOD first evaluates
the deferred req.Request.Body.Close — a nil dereference when the
encapsulated request is missing — and answers CONNECT with an immediate
204; every other method evaluates the deferred req.Response.Body.Close —
a nil dereference when the encapsulated response is missing — and then both
fall into the shared core. -/
def requestProcessing (cfg : Config) (serviceName : String) (req : IcapRequest)
    (is204Flag isShadow : Bool) (backend : HttpMsg → BackendResult) (w : Writer) :
    Outcome :=
  if req.method = "OPTIONS" then optionsMode cfg serviceName w
  else if req.method = "REQMOD" then
    match req.request with
    | none => ⟨w, 0, true⟩
    | some r =>
      if r.method = "CONNECT" then ⟨w.writeHeader 204 EncapMsg.nil false, 0, false⟩
      else processCore req is204Flag isShadow backend w
  else
    match req.response with
    | none => ⟨w, 0, true⟩
    | some _ => processCore req is204Flag isShadow backend w

/-- shadowService: reply 204 when the client allowed it, else echo the
encapsulated message of the request's method as a 200; echoing a missing
message dereferences a nil body (panic) right after the commit. -/
def shadowService (req : IcapRequest) (is204Flag : Bool) (w : Writer) : Writer × Bool :=
  if is204Flag then (w.writeHeader 204 EncapMsg.nil false, false)
  else if req.method = "REQMOD" then
    match req.request with
    | some r => ((w.writeHeader 200 (EncapMsg.req r) true).write r.body, false)
    | none => (w.writeHeader 200 EncapMsg.nil true, true)
  else if req.method = "RESPMOD" then
    match req.response with
    | some r => ((w.writeHeader 200 (EncapMsg.resp r) true).write r.body, false)
    | none => (w.writeHeader 200 EncapMsg.nil true, true)
  else (w, false)

/-- What RequestInitialization leaves behind: the outcome so far, the
computed service name and flags, and whether it returned a nil error (so
that the caller goes on to RequestProcessing). -/
structure InitResult where
  outcome : Outcome
  serviceName : String
  is204Flag : Bool
  isShadow : Bool
  proceed : Bool
deriving Repr

/-- RequestInitialization: route by the path after the leading slash (404
when unknown), gate the method (405 when not enabled), set the ISTag and
Service headers, read Allow: 204 and the shadow flag, and in shadow mode
for a non-OPTIONS method reply at once via shadowService and fire
RequestProcessing for its side effects (its result discarded). -/
def requestInitialization (cfg : Config) (req : IcapRequest)
    (backend : HttpMsg → BackendResult) (w : Writer) : InitResult :=
  let serviceName := req.urlPath.drop 1
  if ¬ isServiceExists cfg serviceName = true then
    ⟨⟨w.writeHeader 404 EncapMsg.nil false, 0, false⟩, serviceName, false, false, false⟩
  else if ¬ isMethodAllowed cfg serviceName (getMethodName req.method) = true then
    ⟨⟨w.writeHeader 405 EncapMsg.nil false, 0, false⟩, serviceName, false, false, false⟩
  else
    let w := addingISTAGServiceHeaders cfg serviceName w
    let is204Flag := is204Allowed req
    let isShadow := readValuesBool cfg serviceName "shadow_service"
    if isShadow = true ∧ req.method ≠ "OPTIONS" then
      let sres := shadowService req is204Flag w
      if sres.2 then ⟨⟨sres.1, 0, true⟩, serviceName, is204Flag, isShadow, false⟩
      else
        ⟨requestProcessing cfg serviceName req is204Flag isShadow backend sres.1,
          serviceName, is204Flag, isShadow, false⟩
    else ⟨⟨w, 0, false⟩, serviceName, is204Flag, isShadow, true⟩

/-- Modelled from the spec: the accept loop that owns the controller is not
among the staged sources.  Per the data-flow description (spec section 2)
it hands each parsed request to the transaction controller, which runs
RequestInitialization and, when that reports no error, RequestProcessing. -/
def handleTransaction (cfg : Config) (req : IcapRequest)
    (backend : HttpMsg → BackendResult) : Outcome :=
  let ir := requestInitialization cfg req backend ⟨[], none⟩
  if ir.proceed then
    requestProcessing cfg ir.serviceName req ir.is204Flag ir.isShadow backend
      ir.outcome.writer
  else ir.outcome

/-- The reply a shadow service produces with no backend at all, stated from
the specification's words: 204 when the client advertised Allow: 204, else
200 echoing the original encapsulated message. -/
def shadowReplyNoBackend (req : IcapRequest) (w : Writer) : Writer :=
  (shadowService req (is204Allowed req) w).1

/-! ### Basic lemmas about the header map and the response writer -/

theorem hSet_get_self (h : List (String × String)) (k v : String) :
    hGet (hSet h k v) k = some v := by
  induction h with
  | nil => simp [hSet, hGet]
  | cons kv t ih =>
      by_cases hk : kv.1 = k
      · simp [hSet, hGet, hk]
      · simpa [hSet, hGet, hk] using ih

theorem hSet_get_other (h : List (String × String)) (k v k2 : String) (hne : k2 ≠ k) :
    hGet (hSet h k v) k2 = hGet h k2 := by
  induction h with
  | nil => simp [hSet, hGet, Ne.symm hne]
  | cons kv t ih =>
      by_cases hk : kv.1 = k
      · simp [hSet, hGet, hk, hne, Ne.symm hne]
      · by_cases hk2 : kv.1 = k2
        · simp [hSet, hGet, hk, hk2, hne]
        · simpa [hSet, hGet, hk, hk2] using ih

theorem setHeader_committed (w : Writer) (k v : String) :
    (w.setHeader k v).committed = w.committed := rfl

theorem commitStatus_setHeader (w : Writer) (k v : String) :
    commitStatus (w.setHeader k v) = commitStatus w := rfl

theorem commitStatus_write (w : Writer) (bs : List Nat) :
    commitStatus (w.write bs) = commitStatus w := by
  cases hc : w.committed <;> simp [Writer.write, commitStatus, hc]

theorem commitStatus_writeHeader (w : Writer) (s : Nat) (m : EncapMsg) (b : Bool) :
    commitStatus (w.writeHeader s m b) = some ((commitStatus w).getD s) := by
  cases hc : w.committed <;> simp [Writer.writeHeader, commitStatus, hc]

theorem writeHeader_of_some (w : Writer) (c : Committed) (hw : w.committed = some c)
    (s : Nat) (m : EncapMsg) (b : Bool) : w.writeHeader s m b = w := by
  simp [Writer.writeHeader, hw]

theorem writeHeader_committed_of_none (w : Writer) (hw : w.committed = none)
    (s : Nat) (m : EncapMsg) (b : Bool) :
    (w.writeHeader s m b).committed = some ⟨s, w.h, m, b, []⟩ := by
  simp [Writer.writeHeader, hw]

theorem mergeServiceHeaders_committed (hs : List (String × String)) (w : Writer) :
    (mergeServiceHeaders w hs).committed = w.committed := by
  induction hs generalizing w with
  | nil => rfl
  | cons kv t ih =>
      show (mergeServiceHeaders (w.setHeader kv.1 kv.2) t).committed = w.committed
      rw [ih]
      exact setHeader_committed w kv.1 kv.2

theorem mergedWriter_committed (w : Writer) (ho : Option (List (String × String))) :
    (mergedWriter w ho).committed = w.committed := by
  cases ho with
  | none => rfl
  | some hs => exact mergeServiceHeaders_committed hs w

theorem commitStatus_mergedWriter (w : Writer) (ho : Option (List (String × String))) :
    commitStatus (mergedWriter w ho) = commitStatus w := by
  simp [commitStatus, mergedWriter_committed]

theorem getD_eq_204 {o : Option Nat} {s : Nat} (h : o.getD s = 204) (hs : s ≠ 204) :
    o = some 204 := by
  cases o with
  | none => exact absurd h hs
  | some x => simpa using h

/-! ### Which paths can commit a 204 -/

theorem commitStatus_optionsMode (cfg : Config) (serviceName : String) (w : Writer)
    (hc : commitStatus (optionsMode cfg serviceName w).writer = some 204) :
    commitStatus w = some 204 := by
  unfold optionsMode at hc
  split at hc
  · exact hc
  · simp only [commitStatus_writeHeader, commitStatus_setHeader, Option.some_inj] at hc
    split at hc
    · split at hc
      · simp only [commitStatus_setHeader] at hc
        exact getD_eq_204 hc (by decide)
      · simp only [commitStatus_setHeader] at hc
        exact getD_eq_204 hc (by decide)
    · simp only [commitStatus_setHeader] at hc
      exact getD_eq_204 hc (by decide)

theorem commitStatus_processCore (req : IcapRequest) (is204Flag isShadow : Bool)
    (backend : HttpMsg → BackendResult) (w : Writer)
    (hc : commitStatus (processCore req is204Flag isShadow backend w).writer = some 204) :
    commitStatus w = some 204 ∨ is204Flag = true := by
  by_cases h204 : is204Flag = true
  · exact Or.inr h204
  · left
    simp only [processCore] at hc
    split at hc
    · simpa only [commitStatus_mergedWriter] using hc
    · split at hc
      · simp only [commitStatus_writeHeader, commitStatus_mergedWriter,
          Option.some_inj] at hc
        exact getD_eq_204 hc (by decide)
      · split at hc
        · simp only [commitStatus_writeHeader, commitStatus_mergedWriter,
            Option.some_inj] at hc
          exact getD_eq_204 hc (by decide)
        · split at hc
          · simp only [commitStatus_writeHeader, commitStatus_mergedWriter,
              Option.some_inj] at hc
            exact getD_eq_204 hc (by decide)
          · simpa only [commitStatus_mergedWriter] using hc

theorem commitStatus_requestProcessing (cfg : Config) (serviceName : String)
    (req : IcapRequest) (is204Flag isShadow : Bool)
    (backend : HttpMsg → BackendResult) (w : Writer)
    (hc : commitStatus
      (requestProcessing cfg serviceName req is204Flag isShadow backend w).writer
        = some 204) :
    commitStatus w = some 204 ∨ is204Flag = true ∨
      (req.method = "REQMOD" ∧ ∃ r, req.request = some r ∧ r.method = "CONNECT") := by
  unfold requestProcessing at hc
  split at hc
  · exact Or.inl (commitStatus_optionsMode cfg serviceName w hc)
  · split at hc
    · -- REQMOD
      rename_i hreq
      split at hc
      · exact Or.inl hc
      · rename_i r hr
        split at hc
        · rename_i hconn
          exact Or.inr (Or.inr ⟨hreq, r, hr, hconn⟩)
        · rcases commitStatus_processCore req is204Flag isShadow backend w hc with h | h
          · exact Or.inl h
          · exact Or.inr (Or.inl h)
    · split at hc
      · exact Or.inl hc
      · rcases commitStatus_processCore req is204Flag isShadow backend w hc with h | h
        · exact Or.inl h
        · exact Or.inr (Or.inl h)

theorem commitStatus_shadowService (req : IcapRequest) (is204Flag : Bool) (w : Writer)
    (hc : commitStatus (shadowService req is204Flag w).1 = some 204) :
    commitStatus w = some 204 ∨ is204Flag = true := by
  unfold shadowService at hc
  split at hc
  · rename_i hflag
    exact Or.inr hflag
  · split at hc
    · split at hc
      · rw [commitStatus_write, commitStatus_writeHeader, Option.some_inj] at hc
        exact Or.inl (getD_eq_204 hc (by decide))
      · rw [commitStatus_writeHeader, Option.some_inj] at hc
        exact Or.inl (getD_eq_204 hc (by decide))
    · split at hc
      · split at hc
        · rw [commitStatus_write, commitStatus_writeHeader, Option.some_inj] at hc
          exact Or.inl (getD_eq_204 hc (by decide))
        · rw [commitStatus_writeHeader, Option.some_inj] at hc
          exact Or.inl (getD_eq_204 hc (by decide))
      · exact Or.inl hc

theorem commitStatus_addingISTAG (cfg : Config) (serviceName : String) (w : Writer) :
    commitStatus (addingISTAGServiceHeaders cfg serviceName w) = commitStatus w := rfl

theorem commitStatus_requestInitialization (cfg : Config) (req : IcapRequest)
    (backend : HttpMsg → BackendResult) (w0 : Writer)
    (hc : commitStatus (requestInitialization cfg req backend w0).outcome.writer
      = some 204) :
    commitStatus w0 = some 204 ∨ is204Allowed req = true ∨
      (req.method = "REQMOD" ∧ ∃ r, req.request = some r ∧ r.method = "CONNECT") := by
  simp only [requestInitialization] at hc
  split at hc
  · simp only [commitStatus_writeHeader, Option.some_inj] at hc
    exact Or.inl (getD_eq_204 hc (by decide))
  · split at hc
    · simp only [commitStatus_writeHeader, Option.some_inj] at hc
      exact Or.inl (getD_eq_204 hc (by decide))
    · split at hc
      · split at hc
        · rcases commitStatus_shadowService req (is204Allowed req) _ hc with h | h
          · rw [commitStatus_addingISTAG] at h
            exact Or.inl h
          · exact Or.inr (Or.inl h)
        · rcases commitStatus_requestProcessing cfg _ req _ _ backend _ hc
            with h | h | h
          · rcases commitStatus_shadowService req (is204Allowed req) _ h with h2 | h2
            · rw [commitStatus_addingISTAG] at h2
              exact Or.inl h2
            · exact Or.inr (Or.inl h2)
          · exact Or.inr (Or.inl h)
          · exact Or.inr (Or.inr h)
      · rw [commitStatus_addingISTAG] at hc
        exact Or.inl hc

/-- The shape of RequestInitialization when it returns a nil error: the
service and method checks passed, the identity headers are set, and the
shadow branch was not taken. -/
theorem requestInitialization_proceed (cfg : Config) (req : IcapRequest)
    (backend : HttpMsg → BackendResult) (w0 : Writer)
    (hp : (requestInitialization cfg req backend w0).proceed = true) :
    requestInitialization cfg req backend w0 =
      ⟨⟨addingISTAGServiceHeaders cfg (req.urlPath.drop 1) w0, 0, false⟩,
        req.urlPath.drop 1, is204Allowed req,
        readValuesBool cfg (req.urlPath.drop 1) "shadow_service", true⟩ := by
  simp only [requestInitialization] at hp ⊢
  split at hp
  · simp at hp
  · split at hp
    · simp at hp
    · split at hp
      · split at hp
        · simp at hp
        · rename_i hcond _
          split
        <;> simp_all
      · rename_i hcond
        split
        <;> simp_all

/-- Claim C1 as amended: a 204 status is committed to the client only when
the request advertised Allow: 204, or when the request is a REQMOD whose
encapsulated HTTP request has method CONNECT (the unconditional CONNECT
no-op reply). -/
theorem no_unsolicited_204 (cfg : Config) (req : IcapRequest)
    (backend : HttpMsg → BackendResult)
    (hc : commitStatus (handleTransaction cfg req backend).writer = some 204) :
    is204Allowed req = true ∨
      (req.method = "REQMOD" ∧ ∃ r, req.request = some r ∧ r.method = "CONNECT") := by
  unfold handleTransaction at hc
  by_cases hp : (requestInitialization cfg req backend ⟨[], none⟩).proceed = true
  · rw [requestInitialization_proceed cfg req backend ⟨[], none⟩ hp] at hc
    simp only [if_true] at hc
    rcases commitStatus_requestProcessing cfg _ req _ _ backend _ hc with h | h | h
    · rw [commitStatus_addingISTAG] at h
      exact absurd h (by simp [commitStatus])
    · exact Or.inl h
    · exact Or.inr h
  · rw [if_neg hp] at hc
    rcases commitStatus_requestInitialization cfg req backend ⟨[], none⟩ hc
      with h | h | h
    · exact absurd h (by simp [commitStatus])
    · exact Or.inl h
    · exact Or.inr h

/-! ### Concrete fixtures for the closed runs -/

/-- A concrete service: both modes enabled, not a shadow service. -/
def svcPlain : ServiceCfg :=
  ⟨"vnd", "tag1", "cap1", true, true, false⟩

/-- A concrete configuration with the single service svc, preview disabled. -/
def cfgPlain : Config :=
  ⟨["svc"], fun _ => svcPlain, ⟨false, "1024"⟩⟩

/-- The same service with the shadow flag set. -/
def svcShadowed : ServiceCfg :=
  ⟨"vnd", "tag1", "cap1", true, true, true⟩

def cfgShadowed : Config :=
  ⟨["svc"], fun _ => svcShadowed, ⟨false, "1024"⟩⟩

/-- A backend replying 204 with no replacement message and no extra
headers. -/
def backend204 : HttpMsg → BackendResult :=
  fun _ => ⟨204, EncapMsg.nil, none⟩

/-- Claim C1 as stated is false: this REQMOD encapsulates a CONNECT, does
not advertise Allow: 204 and carries no preview, yet the controller commits
a 204 to the client. -/
theorem c1_counterexample_connect_204 :
    commitStatus (handleTransaction cfgPlain
        ⟨"REQMOD", "/svc", [], some ⟨"CONNECT", []⟩, none⟩ backend204).writer
      = some 204 ∧
    is204Allowed ⟨"REQMOD", "/svc", [], some ⟨"CONNECT", []⟩, none⟩ = false := by
  constructor
  · rfl
  · rfl

/-- The amended claim C1 at a concrete input: the client advertised
Allow: 204, the backend answered 204 and the controller committed 204. -/
theorem no_unsolicited_204_witness :
    is204Allowed ⟨"REQMOD", "/svc", [("Allow", ["204"])], some ⟨"GET", []⟩, none⟩ = true ∨
      ((⟨"REQMOD", "/svc", [("Allow", ["204"])], some ⟨"GET", []⟩, none⟩ : IcapRequest).method
          = "REQMOD" ∧
        ∃ r, (⟨"REQMOD", "/svc", [("Allow", ["204"])], some ⟨"GET", []⟩, none⟩ : IcapRequest).request
            = some r ∧ r.method = "CONNECT") :=
  no_unsolicited_204 cfgPlain
    ⟨"REQMOD", "/svc", [("Allow", ["204"])], some ⟨"GET", []⟩, none⟩ backend204 (by rfl)

/-! ### The committed reply is immutable once written -/

theorem writeHeader_committed_of_some (w : Writer) (c : Committed)
    (hw : w.committed = some c) (s : Nat) (m : EncapMsg) (b : Bool) :
    (w.writeHeader s m b).committed = some c := by
  rw [writeHeader_of_some w c hw]
  exact hw

theorem optionsMode_committed_of_some (cfg : Config) (serviceName : String)
    (w : Writer) (c : Committed) (hw : w.committed = some c) :
    (optionsMode cfg serviceName w).writer.committed = some c := by
  unfold optionsMode
  split
  · exact hw
  · simp only []
    have hW : ∀ (w2 : Writer), w2.committed = some c →
        ((w2.setHeader "Transfer-Preview" "*").writeHeader 200
          EncapMsg.nil false).committed = some c := by
      intro w2 h2
      refine writeHeader_committed_of_some _ c ?_ _ _ _
      rw [setHeader_committed]
      exact h2
    apply hW
    split
    · split
      · simp only [setHeader_committed]
        exact hw
      · simp only [setHeader_committed]
        exact hw
    · simp only [setHeader_committed]
      exact hw

theorem processCore_committed_of_some (req : IcapRequest) (is204Flag isShadow : Bool)
    (backend : HttpMsg → BackendResult) (w : Writer) (c : Committed)
    (hw : w.committed = some c) :
    (processCore req is204Flag isShadow backend w).writer.committed = some c := by
  have hm : (mergedWriter w (backend (dispatchMsg req)).headers).committed = some c := by
    rw [mergedWriter_committed]
    exact hw
  unfold processCore
  simp only []
  split
  · exact hm
  · split
    · exact writeHeader_committed_of_some _ c hm 500 EncapMsg.nil false
    · split
      · split
        · exact writeHeader_committed_of_some _ c hm 204 EncapMsg.nil false
        · exact writeHeader_committed_of_some _ c hm 200 _ true
      · split
        · exact writeHeader_committed_of_some _ c hm 200 _ true
        · exact hm

theorem requestProcessing_committed_of_some (cfg : Config) (serviceName : String)
    (req : IcapRequest) (is204Flag isShadow : Bool)
    (backend : HttpMsg → BackendResult) (w : Writer) (c : Committed)
    (hw : w.committed = some c) :
    (requestProcessing cfg serviceName req is204Flag isShadow backend w).writer.committed
      = some c := by
  unfold requestProcessing
  split
  · exact optionsMode_committed_of_some cfg serviceName w c hw
  · split
    · split
      · exact hw
      · split
        · exact writeHeader_committed_of_some w c hw 204 EncapMsg.nil false
        · exact processCore_committed_of_some req is204Flag isShadow backend w c hw
    · split
      · exact hw
      · exact processCore_committed_of_some req is204Flag isShadow backend w c hw

theorem write_committed_isSome (w : Writer) (bs : List Nat)
    (hw : w.committed.isSome = true) : ((w.write bs).committed).isSome = true := by
  cases hc : w.committed with
  | none => rw [hc] at hw; exact absurd hw (by simp)
  | some c => simp [Writer.write, hc]

theorem writeHeader_committed_isSome (w : Writer) (s : Nat) (m : EncapMsg) (b : Bool) :
    ((w.writeHeader s m b).committed).isSome = true := by
  cases hc : w.committed <;> simp [Writer.writeHeader, hc]

/-- A shadow service's immediate reply always commits for REQMOD and
RESPMOD. -/
theorem shadowService_commits (req : IcapRequest) (is204Flag : Bool) (w : Writer)
    (hm : req.method = "REQMOD" ∨ req.method = "RESPMOD") :
    ((shadowService req is204Flag w).1.committed).isSome = true := by
  unfold shadowService
  split
  · exact writeHeader_committed_isSome w 204 EncapMsg.nil false
  · split
    · split
      · exact write_committed_isSome _ _ (writeHeader_committed_isSome w 200 _ true)
      · exact writeHeader_committed_isSome w 200 EncapMsg.nil true
    · split
      · split
        · exact write_committed_isSome _ _ (writeHeader_committed_isSome w 200 _ true)
        · exact writeHeader_committed_isSome w 200 EncapMsg.nil true
      · rename_i hnotreq hnotresp
        rcases hm with h | h
        · exact absurd h hnotreq
        · exact absurd h hnotresp

/-- The shared dispatch core always invokes the backend exactly once and
never panics. -/
theorem processCore_calls (req : IcapRequest) (is204Flag isShadow : Bool)
    (backend : HttpMsg → BackendResult) (w : Writer) :
    (processCore req is204Flag isShadow backend w).backendCalls = 1 ∧
      (processCore req is204Flag isShadow backend w).panicked = false := by
  unfold processCore
  simp only []
  split
  · exact ⟨rfl, rfl⟩
  · split
    · exact ⟨rfl, rfl⟩
    · split
      · split
        · exact ⟨rfl, rfl⟩
        · exact ⟨rfl, rfl⟩
      · split
        · exact ⟨rfl, rfl⟩
        · exact ⟨rfl, rfl⟩

/-- A non-panicking REQMOD/RESPMOD processing run that is not the CONNECT
no-op invokes the backend exactly once. -/
theorem requestProcessing_calls (cfg : Config) (serviceName : String)
    (req : IcapRequest) (is204Flag isShadow : Bool)
    (backend : HttpMsg → BackendResult) (w : Writer)
    (hm : req.method = "REQMOD" ∨ req.method = "RESPMOD")
    (hp : (requestProcessing cfg serviceName req is204Flag isShadow backend w).panicked
      = false)
    (hconn : ¬ (req.method = "REQMOD" ∧ ∃ r, req.request = some r ∧
      r.method = "CONNECT")) :
    (requestProcessing cfg serviceName req is204Flag isShadow backend w).backendCalls
      = 1 := by
  have hne : ¬ req.method = "OPTIONS" := by
    rcases hm with h | h <;> (rw [h]; decide)
  unfold requestProcessing at hp ⊢
  rw [if_neg hne] at hp ⊢
  rcases hm with h | h
  · rw [if_pos h] at hp ⊢
    cases hr : req.request with
    | none =>
        simp only [hr] at hp
        exact absurd hp (by decide)
    | some r =>
        simp only [hr] at hp ⊢
        by_cases hcm : r.method = "CONNECT"
        · exact absurd ⟨h, r, hr, hcm⟩ hconn
        · rw [if_neg hcm] at hp ⊢
          exact (processCore_calls req is204Flag isShadow backend w).1
  · have hnr : ¬ req.method = "REQMOD" := by
      rw [h]
      decide
    rw [if_neg hnr] at hp ⊢
    cases hr : req.response with
    | none =>
        simp only [hr] at hp
        exact absurd hp (by decide)
    | some r =>
        simp only [hr] at hp ⊢
        exact (processCore_calls req is204Flag isShadow backend w).1

/-- The transaction outcome in shadow mode: the reply shadowService wrote,
then — unless the echo panicked — the fire-and-forget RequestProcessing run. -/
theorem handleTransaction_shadow (cfg : Config) (req : IcapRequest)
    (backend : HttpMsg → BackendResult)
    (hex : isServiceExists cfg (req.urlPath.drop 1) = true)
    (hal : isMethodAllowed cfg (req.urlPath.drop 1) (getMethodName req.method) = true)
    (hsh : readValuesBool cfg (req.urlPath.drop 1) "shadow_service" = true)
    (hne : req.method ≠ "OPTIONS") :
    handleTransaction cfg req backend =
      (if (shadowService req (is204Allowed req)
            (addingISTAGServiceHeaders cfg (req.urlPath.drop 1) ⟨[], none⟩)).2 then
        ⟨(shadowService req (is204Allowed req)
            (addingISTAGServiceHeaders cfg (req.urlPath.drop 1) ⟨[], none⟩)).1, 0, true⟩
      else
        requestProcessing cfg (req.urlPath.drop 1) req (is204Allowed req)
          (readValuesBool cfg (req.urlPath.drop 1) "shadow_service") backend
          (shadowService req (is204Allowed req)
            (addingISTAGServiceHeaders cfg (req.urlPath.drop 1) ⟨[], none⟩)).1) := by
  by_cases hs2 : (shadowService req (is204Allowed req)
      (addingISTAGServiceHeaders cfg (req.urlPath.drop 1) ⟨[], none⟩)).2 = true
  · simp [handleTransaction, requestInitialization, hex, hal, hsh, hne, hs2]
  · simp [handleTransaction, requestInitialization, hex, hal, hsh, hne, hs2]

/-- Claim C2 as amended: for every REQMOD/RESPMOD to a shadow service, the
committed client reply is exactly the reply shadowService would produce
with no backend at all; and the backend is invoked exactly once — except
that it is not invoked at all when the encapsulated REQMOD request is a
CONNECT or the transaction panicked on a missing encapsulated message. -/
theorem shadow_transparency (cfg : Config) (req : IcapRequest)
    (backend : HttpMsg → BackendResult)
    (hex : isServiceExists cfg (req.urlPath.drop 1) = true)
    (hal : isMethodAllowed cfg (req.urlPath.drop 1) (getMethodName req.method) = true)
    (hsh : readValuesBool cfg (req.urlPath.drop 1) "shadow_service" = true)
    (hm : req.method = "REQMOD" ∨ req.method = "RESPMOD") :
    (handleTransaction cfg req backend).writer.committed =
      (shadowReplyNoBackend req
        (addingISTAGServiceHeaders cfg (req.urlPath.drop 1) ⟨[], none⟩)).committed ∧
      ((handleTransaction cfg req backend).panicked = false →
        ¬ (req.method = "REQMOD" ∧ ∃ r, req.request = some r ∧ r.method = "CONNECT") →
        (handleTransaction cfg req backend).backendCalls = 1) := by
  have hne : req.method ≠ "OPTIONS" := by
    rcases hm with h | h <;> (rw [h]; decide)
  rw [handleTransaction_shadow cfg req backend hex hal hsh hne]
  by_cases hs2 : (shadowService req (is204Allowed req)
      (addingISTAGServiceHeaders cfg (req.urlPath.drop 1) ⟨[], none⟩)).2 = true
  · rw [if_pos hs2]
    refine ⟨rfl, ?_⟩
    intro hpk
    simp at hpk
  · rw [if_neg hs2]
    obtain ⟨c, hc⟩ : ∃ c, (shadowService req (is204Allowed req)
        (addingISTAGServiceHeaders cfg (req.urlPath.drop 1) ⟨[], none⟩)).1.committed
          = some c :=
      Option.isSome_iff_exists.mp
        (shadowService_commits req (is204Allowed req)
          (addingISTAGServiceHeaders cfg (req.urlPath.drop 1) ⟨[], none⟩) hm)
    constructor
    · rw [requestProcessing_committed_of_some cfg _ req _ _ backend _ c hc]
      exact hc.symm
    · intro hpk hconn
      exact requestProcessing_calls cfg _ req _ _ backend _ hm hpk hconn

/-- Claim C2 as stated is false: this shadow-service REQMOD encapsulates a
CONNECT, and the backend is never invoked (instead of exactly once). -/
theorem c2_counterexample_shadow_connect :
    readValuesBool cfgShadowed "svc" "shadow_service" = true ∧
      (handleTransaction cfgShadowed
        ⟨"REQMOD", "/svc", [("Allow", ["204"])], some ⟨"CONNECT", []⟩, none⟩
        backend204).backendCalls = 0 := by
  exact ⟨rfl, rfl⟩

/-- A concrete RESPMOD to a shadow service. -/
def reqRespShadow : IcapRequest :=
  ⟨"RESPMOD", "/svc", [], none, some ⟨[7]⟩⟩

/-- The amended claim C2 at a concrete input. -/
theorem shadow_transparency_witness :
    (handleTransaction cfgShadowed reqRespShadow backend204).writer.committed =
      (shadowReplyNoBackend reqRespShadow
        (addingISTAGServiceHeaders cfgShadowed (reqRespShadow.urlPath.drop 1)
          ⟨[], none⟩)).committed ∧
      ((handleTransaction cfgShadowed reqRespShadow backend204).panicked = false →
        ¬ (reqRespShadow.method = "REQMOD" ∧ ∃ r, reqRespShadow.request = some r ∧
          r.method = "CONNECT") →
        (handleTransaction cfgShadowed reqRespShadow backend204).backendCalls = 1) :=
  shadow_transparency cfgShadowed reqRespShadow backend204 rfl rfl rfl (Or.inr rfl)

/-- The transaction outcome when no shadow reply is due: initialization
proceeds and RequestProcessing runs on the initialized writer. -/
theorem handleTransaction_proceed (cfg : Config) (req : IcapRequest)
    (backend : HttpMsg → BackendResult)
    (hex : isServiceExists cfg (req.urlPath.drop 1) = true)
    (hal : isMethodAllowed cfg (req.urlPath.drop 1) (getMethodName req.method) = true)
    (hns : ¬ (readValuesBool cfg (req.urlPath.drop 1) "shadow_service" = true ∧
      req.method ≠ "OPTIONS")) :
    handleTransaction cfg req backend =
      requestProcessing cfg (req.urlPath.drop 1) req (is204Allowed req)
        (readValuesBool cfg (req.urlPath.drop 1) "shadow_service") backend
        (addingISTAGServiceHeaders cfg (req.urlPath.drop 1) ⟨[], none⟩) := by
  simp [handleTransaction, requestInitialization, hex, hal, hns]

/-- RequestProcessing on a REQMOD that encapsulates a CONNECT: an immediate
204 without touching the backend. -/
theorem requestProcessing_connect (cfg : Config) (serviceName : String)
    (req : IcapRequest) (is204Flag isShadow : Bool)
    (backend : HttpMsg → BackendResult) (w : Writer)
    (hm : req.method = "REQMOD") (r : HttpRequest) (hr : req.request = some r)
    (hcm : r.method = "CONNECT") :
    requestProcessing cfg serviceName req is204Flag isShadow backend w =
      ⟨w.writeHeader 204 EncapMsg.nil false, 0, false⟩ := by
  have hne : ¬ req.method = "OPTIONS" := by
    rw [hm]
    decide
  unfold requestProcessing
  rw [if_neg hne, if_pos hm]
  simp only [hr]
  rw [if_pos hcm]

/-- The shadow echo of a REQMOD with a present encapsulated request never
panics. -/
theorem shadowService_reqmod_some_nopanic (req : IcapRequest) (is204Flag : Bool)
    (w : Writer) (hm : req.method = "REQMOD") (r : HttpRequest)
    (hr : req.request = some r) : (shadowService req is204Flag w).2 = false := by
  unfold shadowService
  split
  · rfl
  · simp only [if_pos hm, hr]

/-- Claim C5 as amended: a REQMOD whose encapsulated HTTP request has
method CONNECT never reaches the backend; a non-shadow service replies 204
regardless of Allow: 204, while a shadow service replies with the shadow
echo (204 only when the client advertised Allow: 204). -/
theorem connect_shortcircuit (cfg : Config) (req : IcapRequest)
    (backend : HttpMsg → BackendResult)
    (hex : isServiceExists cfg (req.urlPath.drop 1) = true)
    (hal : isMethodAllowed cfg (req.urlPath.drop 1) (getMethodName req.method) = true)
    (hm : req.method = "REQMOD")
    (hr : ∃ r, req.request = some r ∧ r.method = "CONNECT") :
    (handleTransaction cfg req backend).backendCalls = 0 ∧
      (readValuesBool cfg (req.urlPath.drop 1) "shadow_service" = false →
        commitStatus (handleTransaction cfg req backend).writer = some 204) ∧
      (readValuesBool cfg (req.urlPath.drop 1) "shadow_service" = true →
        (handleTransaction cfg req backend).writer.committed =
          (shadowReplyNoBackend req
            (addingISTAGServiceHeaders cfg (req.urlPath.drop 1)
              ⟨[], none⟩)).committed) := by
  obtain ⟨r, hr, hcm⟩ := hr
  by_cases hsh : readValuesBool cfg (req.urlPath.drop 1) "shadow_service" = true
  · have hne : req.method ≠ "OPTIONS" := by
      rw [hm]
      decide
    have hs2 : (shadowService req (is204Allowed req)
        (addingISTAGServiceHeaders cfg (req.urlPath.drop 1) ⟨[], none⟩)).2 = false :=
      shadowService_reqmod_some_nopanic req (is204Allowed req) _ hm r hr
    rw [handleTransaction_shadow cfg req backend hex hal hsh hne]
    rw [if_neg (by rw [hs2]; decide)]
    rw [requestProcessing_connect cfg _ req _ _ backend _ hm r hr hcm]
    refine ⟨rfl, ?_, fun _ => ?_⟩
    · intro hf
      rw [hf] at hsh
      exact absurd hsh (by decide)
    · obtain ⟨c, hc⟩ := Option.isSome_iff_exists.mp
        (shadowService_commits req (is204Allowed req)
          (addingISTAGServiceHeaders cfg (req.urlPath.drop 1) ⟨[], none⟩) (Or.inl hm))
      rw [writeHeader_committed_of_some _ c hc]
      exact hc.symm
  · rw [handleTransaction_proceed cfg req backend hex hal (fun h => hsh h.1)]
    rw [requestProcessing_connect cfg _ req _ _ backend _ hm r hr hcm]
    refine ⟨rfl, fun _ => ?_, fun ht => absurd ht hsh⟩
    rw [commitStatus_writeHeader]
    rfl

/-- Claim C5 as stated is false: a shadow service answering a REQMOD that
encapsulates a CONNECT replies 200 (the echo), not 204, when the client
did not advertise Allow: 204. -/
theorem c5_counterexample_shadow_connect :
    commitStatus (handleTransaction cfgShadowed
      ⟨"REQMOD", "/svc", [], some ⟨"CONNECT", [1]⟩, none⟩ backend204).writer
        = some 200 := by
  rfl

/-- A concrete REQMOD encapsulating a CONNECT. -/
def reqConnect : IcapRequest :=
  ⟨"REQMOD", "/svc", [], some ⟨"CONNECT", [2]⟩, none⟩

/-- The amended claim C5 at a concrete input. -/
theorem connect_shortcircuit_witness :
    (handleTransaction cfgPlain reqConnect backend204).backendCalls = 0 ∧
      (readValuesBool cfgPlain (reqConnect.urlPath.drop 1) "shadow_service" = false →
        commitStatus (handleTransaction cfgPlain reqConnect backend204).writer
          = some 204) ∧
      (readValuesBool cfgPlain (reqConnect.urlPath.drop 1) "shadow_service" = true →
        (handleTransaction cfgPlain reqConnect backend204).writer.committed =
          (shadowReplyNoBackend reqConnect
            (addingISTAGServiceHeaders cfgPlain (reqConnect.urlPath.drop 1)
              ⟨[], none⟩)).committed) :=
  connect_shortcircuit cfgPlain reqConnect backend204 rfl rfl rfl ⟨⟨"CONNECT", [2]⟩, rfl, rfl⟩

/-! ### Identity headers (ISTag, Service) -/

/-- The header block carries the two identity headers (under their
canonical keys, as http.Header stores them). -/
def identityHeaders (h : List (String × String)) : Prop :=
  (hGet h (canonicalKey "ISTag")).isSome = true ∧
    (hGet h (canonicalKey "Service")).isSome = true

/-- The writer invariant: the pending header block carries the identity
headers and so does every committed snapshot. -/
def IdInv (w : Writer) : Prop :=
  identityHeaders w.h ∧ ∀ c, w.committed = some c → identityHeaders c.headers

theorem hSet_get_isSome (h : List (String × String)) (k v k2 : String)
    (hs : (hGet h k2).isSome = true) : (hGet (hSet h k v) k2).isSome = true := by
  by_cases hk : k2 = k
  · subst hk
    rw [hSet_get_self]
    rfl
  · rw [hSet_get_other h k v k2 hk]
    exact hs

theorem identityHeaders_hSet (h : List (String × String)) (k v : String)
    (hi : identityHeaders h) : identityHeaders (hSet h k v) :=
  ⟨hSet_get_isSome h k v _ hi.1, hSet_get_isSome h k v _ hi.2⟩

theorem IdInv_setHeader (w : Writer) (k v : String) (hi : IdInv w) :
    IdInv (w.setHeader k v) :=
  ⟨identityHeaders_hSet w.h (canonicalKey k) v hi.1, hi.2⟩

theorem writeHeader_h (w : Writer) (s : Nat) (m : EncapMsg) (b : Bool) :
    (w.writeHeader s m b).h = w.h := by
  cases hw : w.committed <;> simp [Writer.writeHeader, hw]

theorem IdInv_writeHeader (w : Writer) (s : Nat) (m : EncapMsg) (b : Bool)
    (hi : IdInv w) : IdInv (w.writeHeader s m b) := by
  constructor
  · rw [writeHeader_h]
    exact hi.1
  · intro c hc
    cases hw : w.committed with
    | none =>
        rw [writeHeader_committed_of_none w hw] at hc
        obtain rfl : (⟨s, w.h, m, b, []⟩ : Committed) = c := Option.some.inj hc
        exact hi.1
    | some c0 =>
        rw [writeHeader_of_some w c0 hw] at hc
        exact hi.2 c hc

theorem IdInv_write (w : Writer) (bs : List Nat) (hi : IdInv w) :
    IdInv (w.write bs) := by
  constructor
  · exact hi.1
  · intro c hc
    cases hw : w.committed with
    | none =>
        simp [Writer.write, hw] at hc
    | some c0 =>
        simp only [Writer.write, hw, Option.map_some] at hc
        obtain rfl : (⟨c0.status, c0.headers, c0.msg, c0.hasBody, c0.bodyBytes ++ bs⟩ :
            Committed) = c := Option.some.inj hc
        exact hi.2 c0 hw

theorem IdInv_merge (hs : List (String × String)) (w : Writer) (hi : IdInv w) :
    IdInv (mergeServiceHeaders w hs) := by
  induction hs generalizing w with
  | nil => exact hi
  | cons kv t ih =>
      show IdInv (mergeServiceHeaders (w.setHeader kv.1 kv.2) t)
      exact ih _ (IdInv_setHeader w kv.1 kv.2 hi)

theorem IdInv_mergedWriter (w : Writer) (ho : Option (List (String × String)))
    (hi : IdInv w) : IdInv (mergedWriter w ho) := by
  cases ho with
  | none => exact hi
  | some hs => exact IdInv_merge hs w hi

theorem IdInv_optionsMode (cfg : Config) (serviceName : String) (w : Writer)
    (hi : IdInv w) : IdInv (optionsMode cfg serviceName w).writer := by
  unfold optionsMode
  split
  · exact hi
  · apply IdInv_writeHeader
    apply IdInv_setHeader
    split
    · split
      · exact IdInv_setHeader _ _ _ (IdInv_setHeader _ _ _ (IdInv_setHeader _ _ _ hi))
      · exact IdInv_setHeader _ _ _ (IdInv_setHeader _ _ _ hi)
    · exact IdInv_setHeader _ _ _ (IdInv_setHeader _ _ _ hi)

theorem IdInv_processCore (req : IcapRequest) (is204Flag isShadow : Bool)
    (backend : HttpMsg → BackendResult) (w : Writer) (hi : IdInv w) :
    IdInv (processCore req is204Flag isShadow backend w).writer := by
  have hm : IdInv (mergedWriter w (backend (dispatchMsg req)).headers) :=
    IdInv_mergedWriter w _ hi
  unfold processCore
  simp only []
  split
  · exact hm
  · split
    · exact IdInv_writeHeader _ _ _ _ hm
    · split
      · split
        · exact IdInv_writeHeader _ _ _ _ hm
        · exact IdInv_writeHeader _ _ _ _ hm
      · split
        · exact IdInv_writeHeader _ _ _ _ hm
        · exact hm

theorem IdInv_requestProcessing (cfg : Config) (serviceName : String)
    (req : IcapRequest) (is204Flag isShadow : Bool)
    (backend : HttpMsg → BackendResult) (w : Writer) (hi : IdInv w) :
    IdInv (requestProcessing cfg serviceName req is204Flag isShadow backend w).writer := by
  unfold requestProcessing
  split
  · exact IdInv_optionsMode cfg serviceName w hi
  · split
    · split
      · exact hi
      · split
        · exact IdInv_writeHeader _ _ _ _ hi
        · exact IdInv_processCore req is204Flag isShadow backend w hi
    · split
      · exact hi
      · exact IdInv_processCore req is204Flag isShadow backend w hi

theorem IdInv_shadowService (req : IcapRequest) (is204Flag : Bool) (w : Writer)
    (hi : IdInv w) : IdInv (shadowService req is204Flag w).1 := by
  unfold shadowService
  split
  · exact IdInv_writeHeader _ _ _ _ hi
  · split
    · split
      · exact IdInv_write _ _ (IdInv_writeHeader _ _ _ _ hi)
      · exact IdInv_writeHeader _ _ _ _ hi
    · split
      · split
        · exact IdInv_write _ _ (IdInv_writeHeader _ _ _ _ hi)
        · exact IdInv_writeHeader _ _ _ _ hi
      · exact hi

theorem IdInv_addingISTAG (cfg : Config) (serviceName : String) :
    IdInv (addingISTAGServiceHeaders cfg serviceName ⟨[], none⟩) := by
  constructor
  · constructor
    · rw [show canonicalKey "ISTag" = "Istag" from rfl]
      rfl
    · rfl
  · intro c hc
    exact absurd hc (by simp [addingISTAGServiceHeaders, Writer.setHeader])

theorem requestInitialization_identity (cfg : Config) (req : IcapRequest)
    (backend : HttpMsg → BackendResult) (c : Committed)
    (hc : (requestInitialization cfg req backend
      ⟨[], none⟩).outcome.writer.committed = some c) :
    ((c.status = 404 ∨ c.status = 405) ∧ c.headers = []) ∨
      identityHeaders c.headers := by
  simp only [requestInitialization] at hc
  split at hc
  · left
    simp only [Writer.writeHeader] at hc
    obtain rfl := Option.some.inj hc
    exact ⟨Or.inl rfl, rfl⟩
  · split at hc
    · left
      simp only [Writer.writeHeader] at hc
      obtain rfl := Option.some.inj hc
      exact ⟨Or.inr rfl, rfl⟩
    · split at hc
      · split at hc
        · right
          exact (IdInv_shadowService req (is204Allowed req) _
            (IdInv_addingISTAG cfg _)).2 c hc
        · right
          exact (IdInv_requestProcessing cfg _ req _ _ backend _
            (IdInv_shadowService req (is204Allowed req) _
              (IdInv_addingISTAG cfg _))).2 c hc
      · right
        exact (IdInv_addingISTAG cfg _).2 c hc

/-- Claim C3 as amended: every committed ICAP reply other than the early
404 and 405 replies carries the ISTag and Service headers (initialized from
the service descriptor); the 404 and 405 replies are committed before those
headers are set and carry an empty header block. -/
theorem istag_service_on_responses (cfg : Config) (req : IcapRequest)
    (backend : HttpMsg → BackendResult) (c : Committed)
    (hc : (handleTransaction cfg req backend).writer.committed = some c) :
    ((c.status = 404 ∨ c.status = 405) ∧ c.headers = []) ∨
      identityHeaders c.headers := by
  unfold handleTransaction at hc
  by_cases hp : (requestInitialization cfg req backend ⟨[], none⟩).proceed = true
  · rw [requestInitialization_proceed cfg req backend ⟨[], none⟩ hp] at hc
    simp only [if_true] at hc
    right
    exact (IdInv_requestProcessing cfg _ req _ _ backend _
      (IdInv_addingISTAG cfg _)).2 c hc
  · rw [if_neg hp] at hc
    exact requestInitialization_identity cfg req backend c hc

/-- Claim C3 as stated is false: the 404 reply for an unknown service
carries neither an ISTag nor a Service header. -/
theorem c3_counterexample_404_headers :
    (handleTransaction cfgPlain ⟨"REQMOD", "/nope", [], some ⟨"GET", []⟩, none⟩
        backend204).writer.committed =
      some ⟨404, [], EncapMsg.nil, false, []⟩ ∧
    hGet ([] : List (String × String)) (canonicalKey "ISTag") = none := by
  exact ⟨rfl, rfl⟩

/-- The amended claim C3 at a concrete input. -/
theorem istag_service_on_responses_witness :
    (((⟨200, [("Istag", "tag1"), ("Service", "cap1")], EncapMsg.nil, true, []⟩ :
        Committed).status = 404 ∨
      (⟨200, [("Istag", "tag1"), ("Service", "cap1")], EncapMsg.nil, true, []⟩ :
        Committed).status = 405) ∧
      (⟨200, [("Istag", "tag1"), ("Service", "cap1")], EncapMsg.nil, true, []⟩ :
        Committed).headers = []) ∨
      identityHeaders (⟨200, [("Istag", "tag1"), ("Service", "cap1")], EncapMsg.nil,
        true, []⟩ : Committed).headers :=
  istag_service_on_responses cfgPlain ⟨"REQMOD", "/svc", [], some ⟨"GET", []⟩, none⟩
    backend204 ⟨200, [("Istag", "tag1"), ("Service", "cap1")], EncapMsg.nil, true, []⟩ rfl

/-! ### Mapping of a backend 204 -/

/-- When the method checks select the shared core (REQMOD with a present
non-CONNECT request, or RESPMOD with a present response), RequestProcessing
is exactly the core dispatch. -/
theorem requestProcessing_core (cfg : Config) (serviceName : String)
    (req : IcapRequest) (is204Flag isShadow : Bool)
    (backend : HttpMsg → BackendResult) (w : Writer)
    (hm : (req.method = "REQMOD" ∧ ∃ r, req.request = some r ∧ r.method ≠ "CONNECT") ∨
      (req.method = "RESPMOD" ∧ req.response ≠ none)) :
    requestProcessing cfg serviceName req is204Flag isShadow backend w =
      processCore req is204Flag isShadow backend w := by
  rcases hm with ⟨h, r, hr, hcm⟩ | ⟨h, hresp⟩
  · have hne : ¬ req.method = "OPTIONS" := by
      rw [h]
      decide
    unfold requestProcessing
    rw [if_neg hne, if_pos h]
    simp only [hr]
    rw [if_neg hcm]
  · have hne : ¬ req.method = "OPTIONS" := by
      rw [h]
      decide
    have hnr : ¬ req.method = "REQMOD" := by
      rw [h]
      decide
    unfold requestProcessing
    rw [if_neg hne, if_neg hnr]
    cases hresp2 : req.response with
    | none => exact absurd hresp2 hresp
    | some r => simp only [hresp2]

/-- The core dispatch when the backend answers 204 (non-shadow): 204 when
the client allowed it, else 200 carrying the backend-returned message. -/
theorem processCore_204 (req : IcapRequest) (is204Flag : Bool)
    (backend : HttpMsg → BackendResult) (w : Writer)
    (hb : (backend (dispatchMsg req)).status = 204) :
    processCore req is204Flag false backend w =
      (if is204Flag then
        ⟨(mergedWriter w (backend (dispatchMsg req)).headers).writeHeader 204
          EncapMsg.nil false, 1, false⟩
      else
        ⟨(mergedWriter w (backend (dispatchMsg req)).headers).writeHeader 200
          (backend (dispatchMsg req)).httpMsg true, 1, false⟩) := by
  unfold processCore
  simp only [Bool.false_eq_true, if_false]
  rw [if_neg (by rw [hb]; decide), if_pos hb]

/-- Claim C4 as amended: in a non-shadow REQMOD/RESPMOD transaction whose
backend returns ICAP status 204, the controller writes 204 with no
encapsulated message when the client advertised Allow: 204; otherwise it
writes 200 whose encapsulated message is whatever the backend returned —
the original message only when the backend returned it, and no message at
all when the backend returned nil. -/
theorem backend204_mapping (cfg : Config) (req : IcapRequest)
    (backend : HttpMsg → BackendResult)
    (hex : isServiceExists cfg (req.urlPath.drop 1) = true)
    (hal : isMethodAllowed cfg (req.urlPath.drop 1) (getMethodName req.method) = true)
    (hsh : readValuesBool cfg (req.urlPath.drop 1) "shadow_service" = false)
    (hm : (req.method = "REQMOD" ∧ ∃ r, req.request = some r ∧ r.method ≠ "CONNECT") ∨
      (req.method = "RESPMOD" ∧ req.response ≠ none))
    (hb : (backend (dispatchMsg req)).status = 204) :
    (is204Allowed req = true →
      (handleTransaction cfg req backend).writer.committed =
        some ⟨204, (mergedWriter (addingISTAGServiceHeaders cfg (req.urlPath.drop 1)
          ⟨[], none⟩) (backend (dispatchMsg req)).headers).h, EncapMsg.nil,
          false, []⟩) ∧
    (is204Allowed req = false →
      (handleTransaction cfg req backend).writer.committed =
        some ⟨200, (mergedWriter (addingISTAGServiceHeaders cfg (req.urlPath.drop 1)
          ⟨[], none⟩) (backend (dispatchMsg req)).headers).h,
          (backend (dispatchMsg req)).httpMsg, true, []⟩) := by
  have hns : ¬ (readValuesBool cfg (req.urlPath.drop 1) "shadow_service" = true ∧
      req.method ≠ "OPTIONS") := by
    intro hand
    rw [hsh] at hand
    exact absurd hand.1 (by decide)
  rw [handleTransaction_proceed cfg req backend hex hal hns]
  rw [requestProcessing_core cfg _ req _ _ backend _ hm]
  rw [hsh]
  rw [processCore_204 req _ backend _ hb]
  have hwm : (mergedWriter (addingISTAGServiceHeaders cfg (req.urlPath.drop 1)
      ⟨[], none⟩) (backend (dispatchMsg req)).headers).committed = none := by
    rw [mergedWriter_committed]
    rfl
  constructor
  · intro h204
    rw [if_pos h204]
    exact writeHeader_committed_of_none _ hwm 204 EncapMsg.nil false
  · intro h204
    rw [if_neg (by rw [h204]; decide)]
    exact writeHeader_committed_of_none _ hwm 200 _ true

/-- A concrete REQMOD with a GET request and no Allow header. -/
def reqGet : IcapRequest :=
  ⟨"REQMOD", "/svc", [], some ⟨"GET", [1, 2]⟩, none⟩

/-- Claim C4 as stated is false: with no Allow: 204 and a backend that
returns (204, nil), the controller commits 200 whose encapsulated message
is nil — it does not echo the original encapsulated GET request. -/
theorem c4_counterexample_no_echo :
    (handleTransaction cfgPlain reqGet backend204).writer.committed =
      some ⟨200, [("Istag", "tag1"), ("Service", "cap1")], EncapMsg.nil, true, []⟩ ∧
    EncapMsg.nil ≠ EncapMsg.req ⟨"GET", [1, 2]⟩ := by
  exact ⟨rfl, by decide⟩

/-- The amended claim C4 at a concrete input. -/
theorem backend204_mapping_witness :
    (is204Allowed reqGet = true →
      (handleTransaction cfgPlain reqGet backend204).writer.committed =
        some ⟨204, (mergedWriter (addingISTAGServiceHeaders cfgPlain
          (reqGet.urlPath.drop 1) ⟨[], none⟩)
          (backend204 (dispatchMsg reqGet)).headers).h, EncapMsg.nil, false, []⟩) ∧
    (is204Allowed reqGet = false →
      (handleTransaction cfgPlain reqGet backend204).writer.committed =
        some ⟨200, (mergedWriter (addingISTAGServiceHeaders cfgPlain
          (reqGet.urlPath.drop 1) ⟨[], none⟩)
          (backend204 (dispatchMsg reqGet)).headers).h,
          (backend204 (dispatchMsg reqGet)).httpMsg, true, []⟩) :=
  backend204_mapping cfgPlain reqGet backend204 rfl rfl rfl
    (Or.inl ⟨rfl, ⟨"GET", [1, 2]⟩, rfl, by decide⟩) rfl

/-- Claim C6, evaluated at the failing input: a REQMOD with neither an
encapsulated request nor an encapsulated response panics on the deferred
nil-body close — before the empty-request substitution at the dispatch site
is ever reached — and the backend is never called. -/
theorem c6_missing_message_panics :
    (handleTransaction cfgPlain ⟨"REQMOD", "/svc", [], none, none⟩
        backend204).panicked = true ∧
      (handleTransaction cfgPlain ⟨"REQMOD", "/svc", [], none, none⟩
        backend204).backendCalls = 0 := by
  exact ⟨rfl, rfl⟩

/-! ### The backend-header merge -/

theorem mergeServiceHeaders_frame (hs : List (String × String)) (w : Writer)
    (key : String) (hk : ∀ kv ∈ hs, canonicalKey kv.1 ≠ key) :
    hGet (mergeServiceHeaders w hs).h key = hGet w.h key := by
  induction hs generalizing w with
  | nil => rfl
  | cons kv t ih =>
      show hGet (mergeServiceHeaders (w.setHeader kv.1 kv.2) t).h key = hGet w.h key
      rw [ih _ (fun kv2 h2 => hk kv2 (List.mem_cons_of_mem kv h2))]
      exact hSet_get_other w.h (canonicalKey kv.1) kv.2 key
        (Ne.symm (hk kv (List.mem_cons_self kv t)))

theorem mergeServiceHeaders_append (w : Writer) (l1 l2 : List (String × String)) :
    mergeServiceHeaders w (l1 ++ l2) =
      mergeServiceHeaders (mergeServiceHeaders w l1) l2 := by
  simp [mergeServiceHeaders, List.foldl_append]

/-- Claim C7 as amended: the backend-header merge Sets every header the
backend returned, overriding any previously set header of the same
canonical name — the ISTag and Service identity headers included — while
every header whose canonical name the backend did not name keeps its value. -/
theorem merge_overrides_and_frames (w : Writer) (hs : List (String × String))
    (k : String) :
    ((∀ kv ∈ hs, canonicalKey kv.1 ≠ canonicalKey k) →
      hGet (mergeServiceHeaders w hs).h (canonicalKey k) =
        hGet w.h (canonicalKey k)) ∧
    (∀ v hs2, (∀ kv ∈ hs2, canonicalKey kv.1 ≠ canonicalKey k) →
      hGet (mergeServiceHeaders w (hs ++ (k, v) :: hs2)).h (canonicalKey k)
        = some v) := by
  constructor
  · intro hk
    exact mergeServiceHeaders_frame hs w (canonicalKey k) hk
  · intro v hs2 hk2
    rw [mergeServiceHeaders_append]
    show hGet (mergeServiceHeaders ((mergeServiceHeaders w hs).setHeader k v) hs2).h
      (canonicalKey k) = some v
    rw [mergeServiceHeaders_frame hs2 _ (canonicalKey k) hk2]
    exact hSet_get_self _ _ _

/-- Claim C7 as stated is false: a backend header named ISTag does override
the identity header set from the service descriptor. -/
theorem c7_counterexample_istag_overridden :
    (handleTransaction cfgPlain
        ⟨"RESPMOD", "/svc", [("Allow", ["204"])], none, some ⟨[3]⟩⟩
        (fun _ => ⟨200, EncapMsg.nil, some [("ISTag", "evil")]⟩)).writer.committed =
      some ⟨200, [("Istag", "evil"), ("Service", "cap1")], EncapMsg.nil, true, []⟩ ∧
      readValuesString cfgPlain "svc" "service_tag" = "tag1" ∧ "evil" ≠ "tag1" := by
  exact ⟨rfl, rfl, by decide⟩

/-! ### Is204Allowed -/

/-- Claim C9 as amended: Is204Allowed is true exactly when the request has
an Allow header whose first value is literally the string 204; a value
merely listing 204 among other tokens does not count. -/
theorem is204Allowed_iff (req : IcapRequest) :
    is204Allowed req = true ↔
      ∃ kv, req.header.find? (fun x => x.1 == "Allow") = some kv ∧
        kv.2.head? = some "204" := by
  unfold is204Allowed headerHas headerGet
  cases hf : req.header.find? (fun x => x.1 == "Allow") with
  | none => simp [hf]
  | some kv =>
      cases kv with
      | mk k vs =>
          cases vs with
          | nil => simp [hf]
          | cons v t => simp [hf]

/-- Claim C9 as stated is false: an Allow header value listing 204 among
other tokens does not set Is204Allowed. -/
theorem c9_counterexample_allow_list :
    is204Allowed ⟨"REQMOD", "/svc", [("Allow", ["204, 206"])], none, none⟩ = false := by
  rfl

/-! ### Enabled methods -/

theorem getEnabledMethods_some (cfg : Config) (serviceName : String)
    (hmode : readValuesBool cfg serviceName "resp_mode" = true ∨
      readValuesBool cfg serviceName "req_mode" = true) :
    ∃ m, getEnabledMethods cfg serviceName = some m ∧ m ≠ "" ∧
      (readValuesBool cfg serviceName "resp_mode" = true →
        readValuesBool cfg serviceName "req_mode" = true →
        m = "RESPMOD, REQMOD") := by
  by_cases hr : readValuesBool cfg serviceName "resp_mode" = true
  · by_cases hq : readValuesBool cfg serviceName "req_mode" = true
    · refine ⟨"RESPMOD, REQMOD", ?_, by decide, fun _ _ => rfl⟩
      simp [getEnabledMethods, hr, hq]
    · refine ⟨"RESPMOD", ?_, by decide, fun _ hq2 => absurd hq2 hq⟩
      simp [getEnabledMethods, hr, hq]
  · rcases hmode with h | h
    · exact absurd h hr
    · refine ⟨"REQMOD", ?_, by decide, fun hr2 _ => absurd hr2 hr⟩
      simp [getEnabledMethods, hr, h]

/-- Claim C10: when at least one of resp_mode and req_mode is enabled, the
enabled-methods computation stays in bounds (some) and returns a non-empty
string; the precondition is needed because OPTIONS is always allowed even
when both flags are disabled, in which case the computation indexes out of
bounds (none). -/
theorem enabledMethods_total (cfg : Config) (serviceName : String) :
    ((readValuesBool cfg serviceName "resp_mode" = true ∨
        readValuesBool cfg serviceName "req_mode" = true) →
      ∃ m, getEnabledMethods cfg serviceName = some m ∧ m ≠ "") ∧
      isMethodAllowed cfg serviceName "OPTIONS" = true ∧
      (readValuesBool cfg serviceName "resp_mode" = false →
        readValuesBool cfg serviceName "req_mode" = false →
        getEnabledMethods cfg serviceName = none) := by
  refine ⟨fun hmode => ?_, rfl, fun hr hq => ?_⟩
  · obtain ⟨m, hm1, hm2, _⟩ := getEnabledMethods_some cfg serviceName hmode
    exact ⟨m, hm1, hm2⟩
  · simp [getEnabledMethods, hr, hq]

/-! ### The OPTIONS reply -/

theorem requestProcessing_options (cfg : Config) (serviceName : String)
    (req : IcapRequest) (is204Flag isShadow : Bool)
    (backend : HttpMsg → BackendResult) (w : Writer) (hm : req.method = "OPTIONS") :
    requestProcessing cfg serviceName req is204Flag isShadow backend w =
      optionsMode cfg serviceName w := by
  unfold requestProcessing
  rw [if_pos hm]

theorem optionsMode_committed (cfg : Config) (serviceName : String) (w : Writer)
    (hw : w.committed = none) (m : String)
    (hme : getEnabledMethods cfg serviceName = some m) :
    (optionsMode cfg serviceName w).writer.committed =
      some ⟨200,
        hSet (if cfg.app.PreviewEnabled = true ∧ 0 ≤ atoiOrZero cfg.app.PreviewBytes
          then hSet (hSet (hSet w.h "Methods" m) "Allow" "204") "Preview"
            cfg.app.PreviewBytes
          else hSet (hSet w.h "Methods" m) "Allow" "204") "Transfer-Preview" "*",
        EncapMsg.nil, false, []⟩ := by
  unfold optionsMode
  simp only [hme]
  by_cases hA : cfg.app.PreviewEnabled = true
  · by_cases hB : 0 ≤ atoiOrZero cfg.app.PreviewBytes
    · rw [if_pos hA, if_pos hB, if_pos (And.intro hA hB)]
      exact writeHeader_committed_of_none _
        (by simp only [setHeader_committed]; exact hw) 200 EncapMsg.nil false
    · rw [if_pos hA, if_neg hB, if_neg (fun hab => hB hab.2)]
      exact writeHeader_committed_of_none _
        (by simp only [setHeader_committed]; exact hw) 200 EncapMsg.nil false
  · rw [if_neg hA, if_neg (fun hab => hA hab.1)]
    exact writeHeader_committed_of_none _
      (by simp only [setHeader_committed]; exact hw) 200 EncapMsg.nil false

/-- Claim C8 as amended: an OPTIONS reply on an existing service with at
least one enabled mode has status 200, no body and no encapsulated message,
a Methods header in canonical order (RESPMOD, REQMOD when both modes are
enabled), an Allow: 204 header, a Transfer-Preview: * header always, and a
Preview header exactly when the preview flag is enabled and the configured
preview-bytes string reads as non-negative. -/
theorem options_response (cfg : Config) (req : IcapRequest)
    (backend : HttpMsg → BackendResult)
    (hex : isServiceExists cfg (req.urlPath.drop 1) = true)
    (hm : req.method = "OPTIONS")
    (hmode : readValuesBool cfg (req.urlPath.drop 1) "resp_mode" = true ∨
      readValuesBool cfg (req.urlPath.drop 1) "req_mode" = true) :
    ∃ c m, (handleTransaction cfg req backend).writer.committed = some c ∧
      getEnabledMethods cfg (req.urlPath.drop 1) = some m ∧
      c.status = 200 ∧ c.msg = EncapMsg.nil ∧ c.hasBody = false ∧ c.bodyBytes = [] ∧
      hGet c.headers "Methods" = some m ∧
      hGet c.headers "Allow" = some "204" ∧
      hGet c.headers "Transfer-Preview" = some "*" ∧
      hGet c.headers "Preview" =
        (if cfg.app.PreviewEnabled = true ∧ 0 ≤ atoiOrZero cfg.app.PreviewBytes then
          some cfg.app.PreviewBytes
        else none) ∧
      (readValuesBool cfg (req.urlPath.drop 1) "resp_mode" = true →
        readValuesBool cfg (req.urlPath.drop 1) "req_mode" = true →
        m = "RESPMOD, REQMOD") := by
  obtain ⟨m, hme, hmne, hboth⟩ := getEnabledMethods_some cfg (req.urlPath.drop 1) hmode
  have hal : isMethodAllowed cfg (req.urlPath.drop 1) (getMethodName req.method)
      = true := by
    rw [hm]
    rfl
  have hns : ¬ (readValuesBool cfg (req.urlPath.drop 1) "shadow_service" = true ∧
      req.method ≠ "OPTIONS") := fun hand => hand.2 hm
  rw [handleTransaction_proceed cfg req backend hex hal hns,
    requestProcessing_options cfg _ req _ _ backend _ hm,
    optionsMode_committed cfg (req.urlPath.drop 1) _ rfl m hme]
  by_cases hAB : cfg.app.PreviewEnabled = true ∧ 0 ≤ atoiOrZero cfg.app.PreviewBytes
  · rw [if_pos hAB, if_pos hAB]
    refine ⟨_, m, rfl, hme, rfl, rfl, rfl, rfl, ?_, ?_, ?_, ?_, hboth⟩
    · rw [hSet_get_other _ _ _ _ (by decide), hSet_get_other _ _ _ _ (by decide),
        hSet_get_other _ _ _ _ (by decide)]
      exact hSet_get_self _ _ _
    · rw [hSet_get_other _ _ _ _ (by decide), hSet_get_other _ _ _ _ (by decide)]
      exact hSet_get_self _ _ _
    · exact hSet_get_self _ _ _
    · rw [hSet_get_other _ _ _ _ (by decide)]
      exact hSet_get_self _ _ _
  · rw [if_neg hAB, if_neg hAB]
    refine ⟨_, m, rfl, hme, rfl, rfl, rfl, rfl, ?_, ?_, ?_, ?_, hboth⟩
    · rw [hSet_get_other _ _ _ _ (by decide), hSet_get_other _ _ _ _ (by decide)]
      exact hSet_get_self _ _ _
    · rw [hSet_get_other _ _ _ _ (by decide)]
      exact hSet_get_self _ _ _
    · exact hSet_get_self _ _ _
    · rw [hSet_get_other _ _ _ _ (by decide), hSet_get_other _ _ _ _ (by decide),
        hSet_get_other _ _ _ _ (by decide)]
      rfl

/-- Claim C8 as stated is false: with no preview configured, the OPTIONS
reply still carries a Transfer-Preview: * header (and no Preview header). -/
theorem c8_counterexample_transfer_preview :
    (handleTransaction cfgPlain ⟨"OPTIONS", "/svc", [], none, none⟩
        backend204).writer.committed =
      some ⟨200, [("Istag", "tag1"), ("Service", "cap1"),
        ("Methods", "RESPMOD, REQMOD"), ("Allow", "204"),
        ("Transfer-Preview", "*")], EncapMsg.nil, false, []⟩ ∧
      cfgPlain.app.PreviewEnabled = false ∧
      hGet [("Istag", "tag1"), ("Service", "cap1"), ("Methods", "RESPMOD, REQMOD"),
        ("Allow", "204"), ("Transfer-Preview", "*")] "Preview" = none := by
  exact ⟨rfl, rfl, rfl⟩

/-- A configuration with the preview flag enabled and 1024 preview bytes. -/
def cfgPreview : Config :=
  ⟨["svc"], fun _ => svcPlain, ⟨true, "1024"⟩⟩

/-- A concrete OPTIONS request. -/
def reqOptions : IcapRequest :=
  ⟨"OPTIONS", "/svc", [], none, none⟩

/-- The amended claim C8 at a concrete input with preview configured. -/
theorem options_response_witness :
    ∃ c m, (handleTransaction cfgPreview reqOptions backend204).writer.committed
        = some c ∧
      getEnabledMethods cfgPreview (reqOptions.urlPath.drop 1) = some m ∧
      c.status = 200 ∧ c.msg = EncapMsg.nil ∧ c.hasBody = false ∧ c.bodyBytes = [] ∧
      hGet c.headers "Methods" = some m ∧
      hGet c.headers "Allow" = some "204" ∧
      hGet c.headers "Transfer-Preview" = some "*" ∧
      hGet c.headers "Preview" =
        (if cfgPreview.app.PreviewEnabled = true ∧
            0 ≤ atoiOrZero cfgPreview.app.PreviewBytes then
          some cfgPreview.app.PreviewBytes
        else none) ∧
      (readValuesBool cfgPreview (reqOptions.urlPath.drop 1) "resp_mode" = true →
        readValuesBool cfgPreview (reqOptions.urlPath.drop 1) "req_mode" = true →
        m = "RESPMOD, REQMOD") :=
  options_response cfgPreview reqOptions backend204 rfl rfl (Or.inl rfl)

end Icapeg
